import Mathlib

/-!
Verification development for the Circlo rental platform's reservation and
payment-settlement core (`backend/routes/api.js`).

The embedding models:
  * the booking store and the three mutating handlers
    (`POST /bookings`, `PUT /bookings/:id/status`, `POST /payments/verify`),
  * the pricing computation of `POST /payments/create-order`,
  * the HMAC-SHA256 signature check of `POST /payments/verify`
    (the Node `crypto` library call is given a full executable model).

Calendar dates are modelled as epoch day numbers (`Int`): JavaScript parses
the date-only ISO strings used throughout as UTC midnights, so both the SQL
lexicographic comparison of those strings and the millisecond arithmetic of
the pricing handler coincide with arithmetic on epoch day numbers.
-/

/-! ## Bytes, 32-bit words, SHA-256 -/

/-- Truncation to a 32-bit word. -/
def w32 (n : Nat) : Nat := n % 4294967296

/-- Right rotation of a 32-bit word by `n` bits. -/
def rotr (n w : Nat) : Nat := w32 ((w >>> n) ||| (w <<< (32 - n)))

/-- The SHA-256 round constants (FIPS 180-4, in decimal). -/
def kConsts : List Nat :=
  [1116352408, 1899447441, 3049323471, 3921009573, 961987163,
   1508970993, 2453635748, 2870763221, 3624381080, 310598401,
   607225278, 1426881987, 1925078388, 2162078206, 2614888103,
   3248222580, 3835390401, 4022224774, 264347078, 604807628,
   770255983, 1249150122, 1555081692, 1996064986, 2554220882,
   2821834349, 2952996808, 3210313671, 3336571891, 3584528711,
   113926993, 338241895, 666307205, 773529912, 1294757372,
   1396182291, 1695183700, 1986661051, 2177026350, 2456956037,
   2730485921, 2820302411, 3259730800, 3345764771, 3516065817,
   3600352804, 4094571909, 275423344, 430227734, 506948616,
   659060556, 883997877, 958139571, 1322822218, 1537002063,
   1747873779, 1955562222, 2024104815, 2227730452, 2361852424,
   2428436474, 2756734187, 3204031479, 3329325298]

/-- The SHA-256 initial hash value (FIPS 180-4, in decimal). -/
def h0Consts : List Nat :=
  [1779033703, 3144134277, 1013904242, 2773480762,
   1359893119, 2600822924, 528734635, 1541459225]

/-- Big-endian packing of bytes into 32-bit words. -/
def bytesToWords : List Nat → List Nat
  | b0 :: b1 :: b2 :: b3 :: rest =>
      (b0 * 16777216 + b1 * 65536 + b2 * 256 + b3) :: bytesToWords rest
  | _ => []

/-- The next word of the SHA-256 message schedule, from the words so far. -/
def scheduleNext (ws : List Nat) : Nat :=
  let n := ws.length
  let w15 := ws.getD (n - 15) 0
  let w2 := ws.getD (n - 2) 0
  let w16 := ws.getD (n - 16) 0
  let w7 := ws.getD (n - 7) 0
  let s0 := (rotr 7 w15) ^^^ (rotr 18 w15) ^^^ (w15 >>> 3)
  let s1 := (rotr 17 w2) ^^^ (rotr 19 w2) ^^^ (w2 >>> 10)
  w32 (w16 + s0 + w7 + s1)

/-- Extend the message schedule by `fuel` further words. -/
def extendSchedule : Nat → List Nat → List Nat
  | 0, ws => ws
  | fuel + 1, ws => extendSchedule fuel (ws ++ [scheduleNext ws])

/-- The eight working variables of the SHA-256 compression function. -/
structure Sha256State where
  a : Nat
  b : Nat
  c : Nat
  d : Nat
  e : Nat
  f : Nat
  g : Nat
  h : Nat
deriving Repr, DecidableEq

/-- One round of the SHA-256 compression function; `kw` pairs the round
constant with the schedule word. -/
def sha256Round (st : Sha256State) (kw : Nat × Nat) : Sha256State :=
  let s1 := (rotr 6 st.e) ^^^ (rotr 11 st.e) ^^^ (rotr 25 st.e)
  let ch := (st.e &&& st.f) ^^^ ((st.e ^^^ 4294967295) &&& st.g)
  let temp1 := w32 (st.h + s1 + ch + kw.1 + kw.2)
  let s0 := (rotr 2 st.a) ^^^ (rotr 13 st.a) ^^^ (rotr 22 st.a)
  let maj := (st.a &&& st.b) ^^^ (st.a &&& st.c) ^^^ (st.b &&& st.c)
  let temp2 := w32 (s0 + maj)
  ⟨w32 (temp1 + temp2), st.a, st.b, st.c, w32 (st.d + temp1), st.e, st.f, st.g⟩

/-- Compress one 64-byte block into the running hash (eight words). -/
def compressBlock (hs : List Nat) (block : List Nat) : List Nat :=
  let ws := extendSchedule 48 (bytesToWords block)
  let init : Sha256State :=
    ⟨hs.getD 0 0, hs.getD 1 0, hs.getD 2 0, hs.getD 3 0,
     hs.getD 4 0, hs.getD 5 0, hs.getD 6 0, hs.getD 7 0⟩
  let fin := (kConsts.zip ws).foldl sha256Round init
  [w32 (hs.getD 0 0 + fin.a), w32 (hs.getD 1 0 + fin.b),
   w32 (hs.getD 2 0 + fin.c), w32 (hs.getD 3 0 + fin.d),
   w32 (hs.getD 4 0 + fin.e), w32 (hs.getD 5 0 + fin.f),
   w32 (hs.getD 6 0 + fin.g), w32 (hs.getD 7 0 + fin.h)]

/-- The 8-byte big-endian encoding of a (64-bit) length value. -/
def lenBytes (n : Nat) : List Nat :=
  [(n >>> 56) % 256, (n >>> 48) % 256, (n >>> 40) % 256, (n >>> 32) % 256,
   (n >>> 24) % 256, (n >>> 16) % 256, (n >>> 8) % 256, n % 256]

/-- SHA-256 message padding: a 0x80 byte, zeros to 56 mod 64, then the
bit length in 8 big-endian bytes. -/
def padMessage (msg : List Nat) : List Nat :=
  let padZeros := (119 - msg.length % 64) % 64
  msg ++ [128] ++ List.replicate padZeros 0 ++ lenBytes (8 * msg.length)

/-- Split a byte list into 64-byte chunks; `fuel` bounds the recursion. -/
def chunksOf64 : Nat → List Nat → List (List Nat)
  | 0, _ => []
  | _ + 1, [] => []
  | fuel + 1, l => l.take 64 :: chunksOf64 fuel (l.drop 64)

/-- The big-endian 4-byte encoding of a 32-bit word. -/
def wordBytes (w : Nat) : List Nat :=
  [(w >>> 24) % 256, (w >>> 16) % 256, (w >>> 8) % 256, w % 256]

/-- SHA-256 of a byte list, as the 32-byte digest. -/
def sha256Bytes (msg : List Nat) : List Nat :=
  let padded := padMessage msg
  let blocks := chunksOf64 (padded.length / 64 + 1) padded
  let hs := blocks.foldl compressBlock h0Consts
  hs.foldr (fun w acc => wordBytes w ++ acc) []

/-- The lowercase hex digit for `n < 16`. -/
def hexDigit (n : Nat) : Char :=
  if n < 10 then Char.ofNat (48 + n) else Char.ofNat (87 + n)

/-- Lowercase hex rendering of a byte list (Node's `digest('hex')`). -/
def bytesToHex (l : List Nat) : String :=
  String.mk (l.foldr (fun b acc => hexDigit (b / 16) :: hexDigit (b % 16) :: acc) [])

/-- The bytes of a string (code points; equals UTF-8 on the ASCII
identifiers and keys this system exchanges). -/
def strBytes (s : String) : List Nat := s.data.map Char.toNat

/-- HMAC-SHA256 over byte lists (block size 64). -/
def hmacSha256 (key msg : List Nat) : List Nat :=
  let k0 := if key.length > 64 then sha256Bytes key else key
  let kPad := k0 ++ List.replicate (64 - k0.length) 0
  let ipadKey := kPad.map (fun b => b ^^^ 54)
  let opadKey := kPad.map (fun b => b ^^^ 92)
  sha256Bytes (opadKey ++ sha256Bytes (ipadKey ++ msg))

/-- `crypto.createHmac('sha256', key).update(msg).digest('hex')`. -/
def hmacSha256Hex (key msg : String) : String :=
  bytesToHex (hmacSha256 (strBytes key) (strBytes msg))

/-! ## Calendar dates

`daysFromCivil` is the standard civil-calendar-to-epoch-day conversion;
it models how JavaScript turns a date-only ISO string into a timestamp
(`Date.parse` of such a string is exactly `86400000 * daysFromCivil y m d`).
All divisions below act on non-negative operands for the dates in scope. -/

/-- Epoch day number of the civil date `y-m-d`. -/
def daysFromCivil (y m d : Int) : Int :=
  let yAdj := if m ≤ 2 then y - 1 else y
  let era := (if 0 ≤ yAdj then yAdj else yAdj - 399) / 400
  let yoe := yAdj - era * 400
  let doy := (153 * ((m + 9) % 12) + 2) / 5 + d - 1
  let doe := yoe * 365 + yoe / 4 - yoe / 100 + doy
  era * 146097 + doe - 719468

/-! ## Data model

Mirrors the columns the handlers read and write: `Items(id, owner_id,
price, price_unit)` and `Bookings(id, user_id, item_id, start_date,
end_date, status, payment_status)`. Statuses are the literal strings the
code stores. Unit prices are modelled in whole rupees (`Int`). -/

structure Item where
  id : Nat
  ownerId : Nat
  price : Int
  priceUnit : String
deriving Repr, DecidableEq

structure Booking where
  id : Nat
  userId : Nat
  itemId : Nat
  startDate : Int
  endDate : Int
  status : String
  paymentStatus : String
deriving Repr, DecidableEq

/-- The persistent state the four handlers touch. The item catalog is
owned by a collaborator; the booking table starts empty. -/
structure Store where
  items : List Item
  bookings : List Booking
deriving Repr, DecidableEq

/-- The typed responses of the handlers (each is a distinct HTTP
status/message pair in the code). -/
inductive ApiError where
  | validationFailed
  | itemNotFound
  | selfBooking
  | unavailable
  | notAuthorized
  | invalidSignature
deriving Repr, DecidableEq

/-! ## POST /bookings -/

/-- The three-disjunct overlap condition of the `POST /bookings` SQL:
`(s, e)` is a stored booking's range, `(bs, be)` the requested range.
`(start_date <= ? AND end_date >= ?)` twice (for the requested start and
end) and `(start_date >= ? AND end_date <= ?)`. -/
def overlapSQL (s e bs be : Int) : Bool :=
  (decide (s ≤ bs) && decide (e ≥ bs)) ||
  (decide (s ≤ be) && decide (e ≥ be)) ||
  (decide (s ≥ bs) && decide (e ≤ be))

/-- The row filter of the overlap query: same item, `status NOT IN
('cancelled', 'rejected')`, and the SQL overlap condition. -/
def blocksBooking (b : Booking) (itemId : Nat) (bs be : Int) : Bool :=
  b.itemId == itemId &&
    !(b.status == "cancelled" || b.status == "rejected") &&
    overlapSQL b.startDate b.endDate bs be

/-- The `POST /bookings` handler: look up the item, forbid self-booking,
run the overlap query, then insert the booking with status `'pending'`
and payment status `'unpaid'`. Input dates are the parsed ISO dates
(format validation is the only date validation the handler performs).
Errors leave the store unchanged. -/
def createBooking (st : Store) (userId newId itemId : Nat)
    (startDate endDate : Int) : Except ApiError Nat × Store :=
  match st.items.find? (fun it => it.id == itemId) with
  | none => (Except.error ApiError.itemNotFound, st)
  | some it =>
    if it.ownerId == userId then
      (Except.error ApiError.selfBooking, st)
    else if st.bookings.any (fun b => blocksBooking b itemId startDate endDate) then
      (Except.error ApiError.unavailable, st)
    else
      (Except.ok newId,
       { st with bookings := st.bookings ++
           [⟨newId, userId, itemId, startDate, endDate, "pending", "unpaid"⟩] })

/-! ## PUT /bookings/:id/status -/

/-- The validator's admissible target statuses. -/
def statusChoices : List String := ["confirmed", "rejected", "completed", "cancelled"]

/-- The `PUT /bookings/:id/status` handler: validate the target status
against `statusChoices`, check the actor owns the booked item (the SQL
join), then write the status unconditionally. -/
def updateBookingStatus (st : Store) (actorId bookingId : Nat)
    (status : String) : Except ApiError Unit × Store :=
  if !(statusChoices.contains status) then
    (Except.error ApiError.validationFailed, st)
  else if !(st.bookings.any (fun b => b.id == bookingId &&
      st.items.any (fun it => it.id == b.itemId && it.ownerId == actorId))) then
    (Except.error ApiError.notAuthorized, st)
  else
    (Except.ok (),
     { st with
       bookings := st.bookings.map fun b =>
         if b.id == bookingId then { b with status := status } else b })

/-! ## POST /payments/verify -/

structure VerifyRequest where
  orderId : String
  paymentId : String
  signature : String
  bookingId : Nat
deriving Repr, DecidableEq

/-- The booking update the verify handler runs on signature match:
`UPDATE Bookings SET status = 'confirmed', payment_status = 'paid'
WHERE id = ?`. -/
def markPaidConfirmed (st : Store) (bookingId : Nat) : Store :=
  { st with
    bookings := st.bookings.map fun b =>
      if b.id == bookingId then
        { b with status := "confirmed", paymentStatus := "paid" }
      else b }

/-- The `POST /payments/verify` handler: recompute the HMAC-SHA256 of
`orderId ++ "|" ++ paymentId` under the secret key, reject on mismatch,
otherwise run the booking update and answer with the payment id. -/
def paymentsVerify (st : Store) (secretKey : String) (req : VerifyRequest) :
    Except ApiError String × Store :=
  if req.signature ≠ hmacSha256Hex secretKey (req.orderId ++ "|" ++ req.paymentId) then
    (Except.error ApiError.invalidSignature, st)
  else
    (Except.ok req.paymentId, markPaidConfirmed st req.bookingId)

/-! ## POST /payments/create-order -/

structure Breakdown where
  rentPayment : Int
  platformFee : Int
  safetyDeposit : Int
  total : Int
deriving Repr, DecidableEq

/-- The pricing computation of `POST /payments/create-order`:
`daysDiff = Math.ceil((end - start) / msPerDay)`, exact on date-only
values, so it is the plain day difference; `rentPayment =
Math.ceil(price * daysDiff)`, exact for whole-rupee prices;
`platformFee = Math.ceil(rentPayment * 0.15)`, the rational ceiling
`⌈rentPayment * 15 / 100⌉` (the IEEE double product rounds to the same
integer at the magnitudes the handlers see); `safetyDeposit = 200`
fixed; `total` their sum. -/
def computeBreakdown (price startDate endDate : Int) : Breakdown :=
  let daysDiff := endDate - startDate
  let rentPayment := price * daysDiff
  let platformFee := (rentPayment * 15 + 99).ediv 100
  let safetyDeposit := 200
  ⟨rentPayment, platformFee, safetyDeposit, rentPayment + platformFee + safetyDeposit⟩

/-- The create-order response: the amount handed to the gateway (paise)
and the amount and breakdown returned to the caller (rupees). -/
structure OrderResult where
  gatewayAmountPaise : Int
  amount : Int
  breakdown : Breakdown
deriving Repr, DecidableEq

/-- The `POST /payments/create-order` handler: look up the item's price,
compute the breakdown, open the gateway order over `totalAmount * 100`,
and answer with `totalAmount` and the breakdown. It persists nothing. -/
def createOrder (st : Store) (itemId : Nat) (startDate endDate : Int) :
    Except ApiError OrderResult × Store :=
  match st.items.find? (fun it => it.id == itemId) with
  | none => (Except.error ApiError.itemNotFound, st)
  | some it =>
    let bd := computeBreakdown it.price startDate endDate
    (Except.ok ⟨bd.total * 100, bd.total, bd⟩, st)

/-! ## Reachability and the spec's overlap invariant -/

/-- The mutating operations of the reservation/payment core. -/
inductive Op where
  | create (userId newId itemId : Nat) (startDate endDate : Int)
  | setStatus (actorId bookingId : Nat) (status : String)
  | verify (secretKey : String) (req : VerifyRequest)

/-- The state after one operation (responses discarded). -/
def applyOp (st : Store) : Op → Store
  | Op.create u n i s e => (createBooking st u n i s e).2
  | Op.setStatus a b s => (updateBookingStatus st a b s).2
  | Op.verify k r => (paymentsVerify st k r).2

/-- The state after a sequence of operations. -/
def runOps (st : Store) (ops : List Op) : Store := ops.foldl applyOp st

/-- The spec's inclusive-range overlap predicate. -/
def rangesOverlap (s1 e1 s2 e2 : Int) : Bool :=
  decide (s1 ≤ e2) && decide (s2 ≤ e1)

/-- The spec's data-model invariant: for each item, bookings whose status
is not in `{cancelled, rejected}` are pairwise non-overlapping on
`[start, end]` inclusive. -/
def invariantHolds (st : Store) : Bool :=
  st.bookings.all (fun b1 => st.bookings.all (fun b2 =>
    b1.id == b2.id ||
    !(b1.itemId == b2.itemId) ||
    (b1.status == "cancelled" || b1.status == "rejected") ||
    (b2.status == "cancelled" || b2.status == "rejected") ||
    !(rangesOverlap b1.startDate b1.endDate b2.startDate b2.endDate)))

deriving instance DecidableEq for Except

/-! ## Concrete fixtures -/

/-- A catalog with one item (id 1, owner 10, 100 rupees per day) and no
bookings yet. -/
def baseStore : Store := ⟨[⟨1, 10, 100, "day"⟩], []⟩

/-- The operation sequence behind the C1 counterexample: book, cancel,
rebook the freed range, then re-confirm the cancelled booking. Every step
uses only the endpoints' own validation (owner 10 acts on the status
endpoint, users 20 and 21 book). -/
def c1Ops : List Op :=
  [Op.create 20 101 1 (daysFromCivil 2024 5 1) (daysFromCivil 2024 5 5),
   Op.setStatus 10 101 "cancelled",
   Op.create 21 102 1 (daysFromCivil 2024 5 1) (daysFromCivil 2024 5 5),
   Op.setStatus 10 101 "confirmed"]

/-- A store holding one rejected booking of item 1. -/
def c4Store : Store :=
  ⟨[⟨1, 10, 100, "day"⟩], [⟨101, 20, 1, 19844, 19848, "rejected", "unpaid"⟩]⟩

/-- A store holding one pending, unpaid booking of item 1. -/
def pendingStore : Store :=
  ⟨[⟨1, 10, 100, "day"⟩], [⟨101, 20, 1, 19844, 19848, "pending", "unpaid"⟩]⟩

/-- A store holding one completed booking of item 1 over
[2024-04-27, 2024-05-07]. -/
def c6Store : Store :=
  ⟨[⟨1, 10, 100, "day"⟩], [⟨101, 20, 1, 19840, 19850, "completed", "unpaid"⟩]⟩

/-! ## Claims -/

/-- C1: the spec invariant — bookings of one item whose status is not in
{cancelled, rejected} are pairwise non-overlapping — is violated in a
state reachable from an empty booking store by booking-creation and
status-update operations alone: booking 101 is cancelled, its range is
rebooked as 102, and then the status endpoint (which writes any requested
status unconditionally) re-confirms 101, leaving two active bookings of
item 1 over the same range. -/
theorem c1_invariant_violated_by_reachable_state :
    invariantHolds (runOps baseStore c1Ops) = false := by decide

/-- C2: the payment verifier accepts — answers success and runs the
confirmed/paid booking update — exactly when the supplied signature equals
the hex HMAC-SHA256 of `orderId ++ "|" ++ paymentId` under the secret key;
any other signature is rejected. -/
theorem c2_verify_accepts_iff_signature_matches
    (st : Store) (k : String) (req : VerifyRequest) :
    paymentsVerify st k req = (Except.ok req.paymentId, markPaidConfirmed st req.bookingId)
      ↔ req.signature = hmacSha256Hex k (req.orderId ++ "|" ++ req.paymentId) := by
  unfold paymentsVerify
  split
  · rename_i h
    simp [h]
  · rename_i h
    rw [not_ne_iff] at h
    simp [h]

/-- C3: when the supplied signature differs from the expected HMAC value,
the verify handler answers the signature error and the store — every field
of every booking — is exactly as before the call. -/
theorem c3_signature_mismatch_leaves_store_unchanged
    (st : Store) (k : String) (req : VerifyRequest)
    (h : req.signature ≠ hmacSha256Hex k (req.orderId ++ "|" ++ req.paymentId)) :
    paymentsVerify st k req = (Except.error ApiError.invalidSignature, st) := by
  unfold paymentsVerify
  rw [if_pos h]

set_option maxRecDepth 10000 in
/-- C3 witness: a concrete mismatching request (signature `"x"` against the
default secret key) is rejected and leaves the concrete store unchanged. -/
theorem c3_signature_mismatch_witness :
    paymentsVerify pendingStore "your_key_secret" ⟨"order_1", "pay_1", "x", 101⟩
      = (Except.error ApiError.invalidSignature, pendingStore) :=
  c3_signature_mismatch_leaves_store_unchanged pendingStore "your_key_secret"
    ⟨"order_1", "pay_1", "x", 101⟩ (by decide)

/-- C4: the status-update endpoint applies a transition the spec's state
machine forbids: on a booking whose status is `rejected`, the item owner's
request for `confirmed` succeeds and the booking becomes `confirmed`,
instead of failing with an invalid-transition error and leaving the
booking unchanged. -/
theorem c4_rejected_becomes_confirmed :
    updateBookingStatus c4Store 10 101 "confirmed" =
      (Except.ok (),
       ⟨[⟨1, 10, 100, "day"⟩], [⟨101, 20, 1, 19844, 19848, "confirmed", "unpaid"⟩]⟩) := by
  decide

/-- C5: for well-formed inclusive ranges, the booking-creation overlap
condition reports a conflict exactly when `s1 ≤ e2 ∧ s2 ≤ e1`; in
particular a requested [2024-05-01, 2024-05-05] conflicts with a stored
[2024-05-05, 2024-05-10] (shared boundary day) but not with a stored
[2024-05-06, 2024-05-10]. -/
theorem c5_overlap_check_iff :
    (∀ s1 e1 s2 e2 : Int, s1 ≤ e1 → s2 ≤ e2 →
      (overlapSQL s2 e2 s1 e1 = true ↔ s1 ≤ e2 ∧ s2 ≤ e1)) ∧
    overlapSQL (daysFromCivil 2024 5 5) (daysFromCivil 2024 5 10)
      (daysFromCivil 2024 5 1) (daysFromCivil 2024 5 5) = true ∧
    overlapSQL (daysFromCivil 2024 5 6) (daysFromCivil 2024 5 10)
      (daysFromCivil 2024 5 1) (daysFromCivil 2024 5 5) = false := by
  refine ⟨?_, by decide, by decide⟩
  intro s1 e1 s2 e2 h1 h2
  unfold overlapSQL
  simp only [Bool.or_eq_true, Bool.and_eq_true, decide_eq_true_eq, ge_iff_le]
  omega

/-- C5 witness: the general equivalence instantiated at the well-formed
ranges [4, 6] and [3, 9]. -/
theorem c5_overlap_check_witness :
    overlapSQL 3 9 4 6 = true ↔ (4 : Int) ≤ 9 ∧ (3 : Int) ≤ 6 :=
  c5_overlap_check_iff.1 4 6 3 9 (by decide) (by decide)

/-- C6 counterexample: a booking whose status is `completed` — neither
`pending` nor `confirmed` — still causes an overlapping request to be
rejected as unavailable, because the handler's filter is `status NOT IN
('cancelled', 'rejected')`. -/
theorem c6_completed_booking_blocks :
    createBooking c6Store 20 200 1 19844 19845 = (Except.error ApiError.unavailable, c6Store) := by
  decide

/-- C6 amended: against a store holding one overlapping booking of the
requested item (owned by someone else), the creation request is rejected
as unavailable exactly when that booking's status is not in
{cancelled, rejected}. -/
theorem c6_blocks_iff_not_cancelled_rejected
    (it : Item) (b : Booking) (u n : Nat) (s e : Int)
    (hItem : it.id = b.itemId) (hOwn : it.ownerId ≠ u)
    (hov : overlapSQL b.startDate b.endDate s e = true) :
    (createBooking ⟨[it], [b]⟩ u n b.itemId s e).1 = Except.error ApiError.unavailable
      ↔ ¬(b.status = "cancelled" ∨ b.status = "rejected") := by
  unfold createBooking
  have hfind : ([it].find? fun x => x.id == b.itemId) = some it :=
    List.find?_cons_of_pos _ (by simp [hItem])
  rw [hfind]
  simp only [List.any_cons, List.any_nil, blocksBooking, hov, Bool.or_false,
    beq_self_eq_true, Bool.true_and, Bool.and_true]
  rw [if_neg (by simp [hOwn])]
  cases hcr : (b.status == "cancelled" || b.status == "rejected") with
  | false =>
    simp only [Bool.or_eq_false_iff, beq_eq_false_iff_ne, ne_eq] at hcr
    simp [hcr.1, hcr.2]
  | true =>
    simp only [Bool.or_eq_true, beq_iff_eq] at hcr
    constructor
    · intro habs
      exact absurd habs (by simp)
    · intro habs
      exact absurd hcr habs

/-- C6 witness: the amended equivalence instantiated with a pending
booking of item 1 and an overlapping request. -/
theorem c6_blocks_witness :
    (createBooking ⟨[⟨1, 10, 100, "day"⟩], [⟨101, 20, 1, 19840, 19850, "pending", "unpaid"⟩]⟩
        22 201 1 19844 19845).1 = Except.error ApiError.unavailable
      ↔ ¬((Booking.mk 101 20 1 19840 19850 "pending" "unpaid").status = "cancelled" ∨
          (Booking.mk 101 20 1 19840 19850 "pending" "unpaid").status = "rejected") :=
  c6_blocks_iff_not_cancelled_rejected ⟨1, 10, 100, "day"⟩
    ⟨101, 20, 1, 19840, 19850, "pending", "unpaid"⟩ 22 201 19844 19845
    rfl (by decide) (by decide)

/-- C7 counterexample: with unit price 100 per day, start 2024-05-01 and
end 2024-05-03, the pricing computation does not yield the claimed
breakdown (300, 45, 200, 545). -/
theorem c7_breakdown_not_as_claimed :
    computeBreakdown 100 (daysFromCivil 2024 5 1) (daysFromCivil 2024 5 3)
      ≠ ⟨300, 45, 200, 545⟩ := by decide

/-- C7 amended: the same inputs yield rentPayment = 200, platformFee = 30,
safetyDeposit = 200, total = 430 — the code's duration is the plain day
difference (2), not the inclusive day count (3); the computation is a pure
function, so recomputation with identical inputs yields the same
breakdown. -/
theorem c7_breakdown_value :
    computeBreakdown 100 (daysFromCivil 2024 5 1) (daysFromCivil 2024 5 3)
      = ⟨200, 30, 200, 430⟩ := by decide

/-- C8: the verify handler performs no order-to-booking correspondence
check: for any order id `o` and payment id `p` whatsoever, a signature
valid for `(o, p)` marks booking 101 confirmed and paid — there is no
order-mismatch rejection. -/
theorem c8_verifier_accepts_any_order (o p : String) :
    paymentsVerify pendingStore "your_key_secret"
        ⟨o, p, hmacSha256Hex "your_key_secret" (o ++ "|" ++ p), 101⟩
      = (Except.ok p,
         ⟨[⟨1, 10, 100, "day"⟩], [⟨101, 20, 1, 19844, 19848, "confirmed", "paid"⟩]⟩) := by
  unfold paymentsVerify
  rw [if_neg (not_ne_iff.mpr rfl)]
  rfl

/-- C9: a creation request whose start date (2024-05-10) is later than its
end date (2024-05-01) is not rejected: the handler validates only the date
format, so the booking is stored with start > end. -/
theorem c9_inverted_range_booking_created :
    createBooking baseStore 20 101 1 (daysFromCivil 2024 5 10) (daysFromCivil 2024 5 1)
      = (Except.ok 101,
         ⟨[⟨1, 10, 100, "day"⟩],
          [⟨101, 20, 1, daysFromCivil 2024 5 10, daysFromCivil 2024 5 1,
            "pending", "unpaid"⟩]⟩) := by decide

/-- C10: whenever create-order succeeds, the amount handed to the payment
gateway (paise) is exactly 100 times the amount returned to the caller,
and that amount equals the breakdown's total (rupees). -/
theorem c10_gateway_amount_is_total_times_100
    (st : Store) (itemId : Nat) (s e : Int) (out : OrderResult)
    (h : (createOrder st itemId s e).1 = Except.ok out) :
    out.gatewayAmountPaise = 100 * out.amount ∧ out.amount = out.breakdown.total := by
  unfold createOrder at h
  cases hf : st.items.find? (fun it => it.id == itemId) with
  | none =>
    rw [hf] at h
    exact absurd h (by simp)
  | some it =>
    rw [hf] at h
    simp only [Except.ok.injEq] at h
    subst h
    exact ⟨by ring, rfl⟩

/-- C10 witness: the relation instantiated at the one-item store and the
range [0, 2], where the order succeeds with total 430 and gateway amount
43000. -/
theorem c10_gateway_amount_witness :
    (OrderResult.mk 43000 430 ⟨200, 30, 200, 430⟩).gatewayAmountPaise
        = 100 * (OrderResult.mk 43000 430 ⟨200, 30, 200, 430⟩).amount ∧
      (OrderResult.mk 43000 430 ⟨200, 30, 200, 430⟩).amount
        = (OrderResult.mk 43000 430 ⟨200, 30, 200, 430⟩).breakdown.total :=
  c10_gateway_amount_is_total_times_100 baseStore 1 0 2
    ⟨43000, 430, ⟨200, 30, 200, 430⟩⟩ (by decide)
